import Mathlib

/-!
Shallow embedding of the mademetry quote-and-order platform core:
the object access-control layer and the quote status workflow, as
implemented in src/server/routes.ts and src/unnamed/part_000 (local
auth), together with the storage and object-storage collaborators that
the routes call.  Parts of the program that are not shipped with the
sources (the storage module, the object-storage service, the shared
zod schemas) are modelled from the specification, each marked by a doc
comment starting with "Modelled from the spec:".
-/

namespace Mademetry

/-! ## Quote status workflow -/

/-- The seven workflow stages, in the fixed order of the spec
(section 4.5) and of the repository README (part_000, Order Status
Workflow). -/
inductive QuoteStatus where
  | quote_requested
  | quote_provided
  | order_confirmed
  | in_production
  | quality_check
  | shipped
  | delivered
deriving DecidableEq

/-- Ordinal position of a stage in the fixed 7-stage order
(REQUESTED = 1 ... DELIVERED = 7). -/
def statusIndex : QuoteStatus → Nat
  | .quote_requested => 1
  | .quote_provided  => 2
  | .order_confirmed => 3
  | .in_production   => 4
  | .quality_check   => 5
  | .shipped         => 6
  | .delivered       => 7

/-- One row of the quote status history table: status plus optional
notes (actor and timestamp omitted, they play no role in the claims). -/
structure HistoryEntry where
  status : QuoteStatus
  notes : Option String
deriving DecidableEq

/-- A quote row together with its status-history rows (newest last). -/
structure Quote where
  id : String
  userId : String
  status : QuoteStatus
  finalPrice : Option String
  history : List HistoryEntry
deriving DecidableEq

/-- Modelled from the spec: storage.createQuote is not under src/.
A quote starts in REQUESTED, the only initial state, and the audit
trail opens with the implicit creation entry (spec sections 3, 4.5
and 8). -/
def createQuote (id userId : String) : Quote :=
  { id := id
    userId := userId
    status := .quote_requested
    finalPrice := none
    history := [{ status := .quote_requested, notes := none }] }

/-- Modelled from the spec: storage.updateQuoteStatus is not under
src/.  Section 9 of the spec records the observed behavior: the
requested status value is stored with no transition validation, and a
status-history entry is appended as the audit trail (repository README,
Quote Status History Table). -/
def updateQuoteStatus (q : Quote) (newStatus : QuoteStatus) (notes : Option String) : Quote :=
  { q with
    status := newStatus
    history := q.history ++ [{ status := newStatus, notes := notes }] }

/-- Modelled from the spec: storage.updateQuotePrice is not under
src/.  It sets finalPrice and is independent of status transitions
(spec section 4.5, setFinalPrice). -/
def updateQuotePrice (q : Quote) (price : String) : Quote :=
  { q with finalPrice := some price }

/-- The transition rule as the spec words it in section 4.5: the
current status must not be terminal and the index must not decrease.
This mirrors the SPEC text, for comparison with the code, which
performs no such check. -/
def specTransitionAllowed (current new : QuoteStatus) : Bool :=
  decide (current ≠ QuoteStatus.delivered ∧ statusIndex current ≤ statusIndex new)

/-- Applying a sequence of status updates in order, as repeated calls
of the status route would. -/
def applyTransitions (q : Quote) : List (QuoteStatus × Option String) → Quote
  | [] => q
  | (s, n) :: rest => applyTransitions (updateQuoteStatus q s n) rest

/-! ## Users and serialization (src/unnamed/part_000 and routes.ts) -/

/-- A stored user row: the users table of the repository README plus
the password hash column used by local auth (part_000). -/
structure User where
  id : String
  email : String
  password : Option String
  firstName : Option String
  lastName : Option String
  profileImageUrl : Option String
  isAdmin : Nat
  createdAt : Nat
  updatedAt : Nat
deriving DecidableEq

/-- The shape of a user object sent to clients: every field of the
stored row except the password hash. -/
structure PublicUser where
  id : String
  email : String
  firstName : Option String
  lastName : Option String
  profileImageUrl : Option String
  isAdmin : Nat
  createdAt : Nat
  updatedAt : Nat
deriving DecidableEq

/-- The userWithoutPassword object built by the register handler
(routes.ts lines 36-45). -/
def registerResponseUser (u : User) : PublicUser :=
  { id := u.id
    email := u.email
    firstName := u.firstName
    lastName := u.lastName
    profileImageUrl := u.profileImageUrl
    isAdmin := u.isAdmin
    createdAt := u.createdAt
    updatedAt := u.updatedAt }

/-- The userWithoutPassword object built by the auth/user handler
(routes.ts lines 98-107). -/
def authUserResponse (u : User) : PublicUser :=
  { id := u.id
    email := u.email
    firstName := u.firstName
    lastName := u.lastName
    profileImageUrl := u.profileImageUrl
    isAdmin := u.isAdmin
    createdAt := u.createdAt
    updatedAt := u.updatedAt }

/-- The userWithoutPassword object the LocalStrategy verify callback
passes to done, which the login handler serializes (part_000 lines
250-261, routes.ts line 77). -/
def localStrategyUser (u : User) : PublicUser :=
  { id := u.id
    email := u.email
    firstName := u.firstName
    lastName := u.lastName
    profileImageUrl := u.profileImageUrl
    isAdmin := u.isAdmin
    createdAt := u.createdAt
    updatedAt := u.updatedAt }

/-- The userWithoutPassword object produced by passport.deserializeUser
(part_000 lines 280-289). -/
def deserializedUser (u : User) : PublicUser :=
  { id := u.id
    email := u.email
    firstName := u.firstName
    lastName := u.lastName
    profileImageUrl := u.profileImageUrl
    isAdmin := u.isAdmin
    createdAt := u.createdAt
    updatedAt := u.updatedAt }

/-- The admin test the route handlers perform: they reload the user
via storage.getUser and compare isAdmin with 1 (routes.ts lines
272-276 et al.); a missing user fails the test exactly as the code
comparison does on undefined. -/
def isAdminUser (users : String → Option User) (uid : String) : Bool :=
  match users uid with
  | some u => u.isAdmin == 1
  | none => false

/-! ## Object access-control layer -/

/-- READ or WRITE, the two access levels of the ACL architecture
(repository README, ACL Architecture). -/
inductive ObjectPermission where
  | READ
  | WRITE
deriving DecidableEq

/-- Object visibility: PUBLIC grants READ to any requester, including
anonymous (spec section 3). -/
inductive ObjectVisibility where
  | PUBLIC
  | PRIVATE
deriving DecidableEq

/-- One ACL rule: group type, group id, granted permission (spec
section 3). -/
structure AclRule where
  groupType : String
  groupId : String
  permission : ObjectPermission
deriving DecidableEq

/-- The access policy attached to exactly one stored object (spec
section 3). -/
structure ObjectPolicy where
  ownerId : String
  visibility : ObjectVisibility
  rules : List AclRule
deriving DecidableEq

/-- WRITE covers READ; a granted permission covers a requested one
(spec sections 3 and 4.2). -/
def permCovers : ObjectPermission → ObjectPermission → Bool
  | .WRITE, _ => true
  | .READ, .READ => true
  | .READ, .WRITE => false

/-- Whether the requester (none = anonymous) is a member of the group
a rule names; membership checking is delegated to an external
capability (spec section 4.2 step 3), here a parameter. -/
def ruleMatches (isMember : String → String → String → Bool)
    (requesterId : Option String) (r : AclRule) : Bool :=
  match requesterId with
  | some uid => isMember uid r.groupType r.groupId
  | none => false

/-- Modelled from the spec: the PermissionResolver is not under src/.
Section 4.2 algorithm, in order: owner allowed unconditionally; PUBLIC
allows READ; otherwise the first rule whose group the requester belongs
to determines the outcome (first match wins, spec section 8), allowing
when its permission covers the request; no rule matched means deny. -/
def checkAccess (isMember : String → String → String → Bool)
    (policy : ObjectPolicy) (requesterId : Option String)
    (perm : ObjectPermission) : Bool :=
  if requesterId = some policy.ownerId then true
  else if policy.visibility = ObjectVisibility.PUBLIC ∧ perm = ObjectPermission.READ then true
  else
    match policy.rules.find? (ruleMatches isMember requesterId) with
    | some r => permCovers r.permission perm
    | none => false

/-- A stored blob object: its byte content and its attached ACL policy
metadata, when one has been attached. -/
structure StoredObject where
  bytes : List Nat
  policy : Option ObjectPolicy
deriving DecidableEq

/-- Modelled from the spec: ObjectStorageService.getObjectEntityFile is
not under src/; it resolves the request path to the stored object and
raises ObjectNotFoundError when absent (here: none). -/
def getObjectEntityFile (store : String → Option StoredObject)
    (path : String) : Option StoredObject :=
  store path

/-- Modelled from the spec: ObjectStorageService.canAccessObjectEntity
is not under src/; it decodes the attached policy of the object and
runs the permission check for a READ download; an object with no
attached policy denies a non-owning reader (spec section 4.1, NoPolicy
case). -/
def canAccessObjectEntity (isMember : String → String → String → Bool)
    (obj : StoredObject) (userId : Option String) : Bool :=
  match obj.policy with
  | some p => checkAccess isMember p userId ObjectPermission.READ
  | none => false

/-- Modelled from the spec: ObjectStorageService.searchPublicObject is
not under src/; per section 4.4 resolvePublic it looks the path up in
the public search namespace with no policy decode. -/
def searchPublicObject (pub : String → Option StoredObject)
    (filePath : String) : Option StoredObject :=
  pub filePath

/-! ## Route handlers (src/server/routes.ts) -/

/-- Outcome of the private object download route. -/
inductive ObjectsResult where
  | notFound
  | deny
  | ok (bytes : List Nat)
deriving DecidableEq

/-- The GET /objects/:objectPath(*) handler (routes.ts lines 126-149):
resolve the object (404 via ObjectNotFoundError when absent), then run
the access check (401 on deny), then stream the bytes. -/
def getObjectsHandler (isMember : String → String → String → Bool)
    (store : String → Option StoredObject) (userId : Option String)
    (path : String) : ObjectsResult :=
  match getObjectEntityFile store path with
  | none => ObjectsResult.notFound
  | some obj =>
    if canAccessObjectEntity isMember obj userId then ObjectsResult.ok obj.bytes
    else ObjectsResult.deny

/-- Outcome of the public object download route. -/
inductive PublicResult where
  | notFound
  | ok (bytes : List Nat)
deriving DecidableEq

/-- The GET /public-objects/:filePath(*) handler (routes.ts lines
151-164): no auth middleware is installed, the request principal is
ignored; 404 when the public search finds nothing, otherwise the file
bytes are streamed with no policy decode. -/
def getPublicObjectsHandler (pub : String → Option StoredObject)
    (_requester : Option String) (filePath : String) : PublicResult :=
  match searchPublicObject pub filePath with
  | none => PublicResult.notFound
  | some file => PublicResult.ok file.bytes

/-! ## Quote creation uploads (routes.ts lines 166-218) -/

/-- One entry of the files array of the POST /api/quotes body. -/
structure UploadedFile where
  uploadURL : String
  name : String
  size : Option Nat
deriving DecidableEq

/-- A quote file row (repository README, Quote Files Table; routes.ts
lines 199-205). -/
structure QuoteFile where
  quoteId : String
  fileName : String
  filePath : String
  fileType : String
  fileSize : Nat
deriving DecidableEq

/-- Modelled from the spec:
ObjectStorageService.trySetObjectEntityAclPolicy is not under src/.
Per section 4.4 attachPolicyAfterUpload it normalizes the upload URL
to the canonical object path, builds an ObjectPolicy from the given
owner and visibility with an empty rule list, attaches it to the
object replacing any prior policy wholesale, and returns the
normalized path.  The URL normalization itself (SignedUrlIssuer) is
kept abstract as the parameter normalize. -/
def trySetObjectEntityAclPolicy (normalize : String → String)
    (store : String → Option StoredObject) (uploadUrl : String)
    (owner : String) (visibility : ObjectVisibility) :
    String × (String → Option StoredObject) :=
  let path := normalize uploadUrl
  let policy : ObjectPolicy := { ownerId := owner, visibility := visibility, rules := [] }
  let obj : StoredObject :=
    { bytes := match store path with
               | some o => o.bytes
               | none => []
      policy := some policy }
  (path, fun p => if p = path then some obj else store p)

/-- The quote file row the handler creates for one uploaded file
(routes.ts lines 199-205), with filePath the normalized object path
returned by the ACL attach and fileType the extension after the last
dot of the name. -/
def createQuoteFileRecord (normalize : String → String) (quoteId : String)
    (f : UploadedFile) : QuoteFile :=
  { quoteId := quoteId
    fileName := f.name
    filePath := normalize f.uploadURL
    fileType := (f.name.splitOn ".").getLastD ""
    fileSize := f.size.getD 0 }

/-- The per-file loop of the POST /api/quotes handler (routes.ts lines
189-207): for each uploaded file, attach a private ACL policy owned by
the uploading user to the uploaded object and create the quote file
row whose filePath is the normalized path. -/
def processQuoteFiles (normalize : String → String) (userId quoteId : String) :
    List UploadedFile → (String → Option StoredObject) →
    List QuoteFile × (String → Option StoredObject)
  | [], store => ([], store)
  | f :: rest, store =>
    let attached := trySetObjectEntityAclPolicy normalize store f.uploadURL userId
      ObjectVisibility.PRIVATE
    let qf : QuoteFile :=
      { quoteId := quoteId
        fileName := f.name
        filePath := attached.1
        fileType := (f.name.splitOn ".").getLastD ""
        fileSize := f.size.getD 0 }
    let res := processQuoteFiles normalize userId quoteId rest attached.2
    (qf :: res.1, res.2)

/-! ## Admin quote routes (routes.ts lines 269-318) and quote read -/

/-- Modelled from the spec: updateQuoteStatusSchema lives in the shared
schema module, not under src/; per the spec the body carries a status
that must be one of the seven workflow stage names, plus optional
notes. -/
def parseStatus : String → Option QuoteStatus
  | "quote_requested" => some QuoteStatus.quote_requested
  | "quote_provided" => some QuoteStatus.quote_provided
  | "order_confirmed" => some QuoteStatus.order_confirmed
  | "in_production" => some QuoteStatus.in_production
  | "quality_check" => some QuoteStatus.quality_check
  | "shipped" => some QuoteStatus.shipped
  | "delivered" => some QuoteStatus.delivered
  | _ => none

/-- Raw body of PUT /api/admin/quotes/:id/status before validation. -/
structure RawStatusBody where
  status : String
  notes : Option String
deriving DecidableEq

/-- Zod parse of the status body: none is the ZodError case. -/
def parseStatusBody (b : RawStatusBody) : Option (QuoteStatus × Option String) :=
  (parseStatus b.status).map (fun s => (s, b.notes))

/-- Raw body of PUT /api/admin/quotes/:id/price before validation. -/
structure RawPriceBody where
  finalPrice : Option String
deriving DecidableEq

/-- Modelled from the spec: updateQuotePriceSchema lives in the shared
schema module, not under src/; the body must carry finalPrice, a body
missing it is malformed (ZodError, none). -/
def parsePriceBody (b : RawPriceBody) : Option String :=
  b.finalPrice

/-- Outcome of the two admin update routes: 403, 400, quote missing,
or 200 with the updated quote. -/
inductive AdminUpdateResult where
  | forbidden
  | validationError
  | quoteMissing
  | ok (q : Quote)
deriving DecidableEq

/-- The PUT /api/admin/quotes/:id/status handler (routes.ts lines
269-293): the admin check comes first, then the zod parse (ZodError
gives 400), then storage.updateQuoteStatus stores the requested status
unconditionally; the pair carries the response and the quote table
after the request. -/
def putAdminQuoteStatus (users : String → Option User)
    (db : String → Option Quote) (uid qid : String)
    (body : RawStatusBody) : AdminUpdateResult × (String → Option Quote) :=
  if isAdminUser users uid then
    match parseStatusBody body with
    | none => (AdminUpdateResult.validationError, db)
    | some (s, notes) =>
      match db qid with
      | none => (AdminUpdateResult.quoteMissing, db)
      | some q =>
        let q2 := updateQuoteStatus q s notes
        (AdminUpdateResult.ok q2, fun i => if i = qid then some q2 else db i)
  else (AdminUpdateResult.forbidden, db)

/-- The PUT /api/admin/quotes/:id/price handler (routes.ts lines
295-318): admin check, zod parse, then storage.updateQuotePrice. -/
def putAdminQuotePrice (users : String → Option User)
    (db : String → Option Quote) (uid qid : String)
    (body : RawPriceBody) : AdminUpdateResult × (String → Option Quote) :=
  if isAdminUser users uid then
    match parsePriceBody body with
    | none => (AdminUpdateResult.validationError, db)
    | some price =>
      match db qid with
      | none => (AdminUpdateResult.quoteMissing, db)
      | some q =>
        let q2 := updateQuotePrice q price
        (AdminUpdateResult.ok q2, fun i => if i = qid then some q2 else db i)
  else (AdminUpdateResult.forbidden, db)

/-- Outcome of GET /api/quotes/:id. -/
inductive QuoteGetResult where
  | notFound
  | forbidden
  | ok (q : Quote)
deriving DecidableEq

/-- The GET /api/quotes/:id handler (routes.ts lines 231-250): 404
when the quote is absent, then 403 when the requester neither owns the
quote nor passes the admin test, otherwise the quote. -/
def getQuoteById (users : String → Option User)
    (db : String → Option Quote) (uid qid : String) : QuoteGetResult :=
  match db qid with
  | none => QuoteGetResult.notFound
  | some q =>
    if q.userId ≠ uid ∧ isAdminUser users uid = false then QuoteGetResult.forbidden
    else QuoteGetResult.ok q

/-! ## Concrete fixtures used by witnesses and counterexamples -/

/-- A stored admin user. -/
def adminFixture : User :=
  { id := "admin1", email := "admin@manhub.example", password := some "hashA"
    firstName := none, lastName := none, profileImageUrl := none
    isAdmin := 1, createdAt := 0, updatedAt := 0 }

/-- A stored non-admin customer. -/
def custFixture : User :=
  { id := "cust1", email := "cust@manhub.example", password := some "hashC"
    firstName := some "Ada", lastName := some "Lovelace", profileImageUrl := none
    isAdmin := 0, createdAt := 0, updatedAt := 0 }

/-- A concrete users table. -/
def usersFixture : String → Option User := fun i =>
  if i = "admin1" then some adminFixture
  else if i = "cust1" then some custFixture
  else none

/-- A quote of cust1 that has reached the terminal DELIVERED stage. -/
def deliveredQuote : Quote :=
  { id := "q1", userId := "cust1", status := QuoteStatus.delivered
    finalPrice := some "120.00"
    history := [{ status := QuoteStatus.quote_requested, notes := none },
                { status := QuoteStatus.delivered, notes := some "done" }] }

/-- A concrete quote table holding only deliveredQuote. -/
def quotesFixture : String → Option Quote := fun i =>
  if i = "q1" then some deliveredQuote else none

/-- A private object owned by cust1 with no extra rules. -/
def privateObjFixture : StoredObject :=
  { bytes := [3, 1, 4]
    policy := some { ownerId := "cust1", visibility := ObjectVisibility.PRIVATE, rules := [] } }

/-- A concrete private object store holding only privateObjFixture. -/
def objectStoreFixture : String → Option StoredObject := fun p =>
  if p = "/objects/uploads/u1" then some privateObjFixture else none

/-- A membership oracle under which nobody belongs to any group. -/
def noMembership : String → String → String → Bool := fun _ _ _ => false

/-- A public asset object that still carries policy metadata. -/
def publicObjFixture : StoredObject :=
  { bytes := [7, 7]
    policy := some { ownerId := "admin1", visibility := ObjectVisibility.PUBLIC, rules := [] } }

/-- The same public asset with its metadata stripped. -/
def strippedObjFixture : StoredObject :=
  { bytes := [7, 7], policy := none }

/-- A concrete public search namespace. -/
def pubStoreFixture : String → Option StoredObject := fun p =>
  if p = "logo.png" then some publicObjFixture else none

/-- The same public namespace with all policy metadata stripped. -/
def pubStoreStripped : String → Option StoredObject := fun p =>
  if p = "logo.png" then some strippedObjFixture else none

/-- A concrete stand-in for the URL normalization of the
SignedUrlIssuer, used only to instantiate witnesses. -/
def normalizeFixture : String → String := fun u => "/objects/" ++ u

/-! ## Helper lemmas -/

/-- Closed form of the history after a sequence of status updates:
every prior entry is kept and one entry per update is appended. -/
theorem applyTransitions_history (ts : List (QuoteStatus × Option String)) :
    ∀ q : Quote, (applyTransitions q ts).history
      = q.history ++ ts.map (fun p => { status := p.1, notes := p.2 }) := by
  induction ts with
  | nil => intro q; simp [applyTransitions]
  | cons hd tl ih =>
    intro q
    obtain ⟨s, n⟩ := hd
    simp [applyTransitions, ih, updateQuoteStatus, List.append_assoc]

/-- Default-valued last element of a cons cell. -/
theorem getLastD_cons_eq {α : Type} (a d : α) (l : List α) :
    (a :: l).getLastD d = l.getLastD a := by
  cases l <;> simp [List.getLastD]

/-- Closed form of the status after a sequence of status updates. -/
theorem applyTransitions_status (ts : List (QuoteStatus × Option String)) :
    ∀ q : Quote, (applyTransitions q ts).status
      = (ts.map Prod.fst).getLastD q.status := by
  induction ts with
  | nil => intro q; rfl
  | cons hd tl ih =>
    intro q
    obtain ⟨s, n⟩ := hd
    rw [List.map_cons, getLastD_cons_eq]
    exact ih (updateQuoteStatus q s n)

/-- The status field of the last mapped history entry is the last
status of the pair list. -/
theorem getLastD_map_status (ts : List (QuoteStatus × Option String)) :
    ∀ c : HistoryEntry,
      ((ts.map (fun p => ({ status := p.1, notes := p.2 } : HistoryEntry))).getLastD c).status
        = (ts.map Prod.fst).getLastD c.status := by
  induction ts with
  | nil => intro c; rfl
  | cons hd tl ih =>
    intro c
    rw [List.map_cons, List.map_cons, getLastD_cons_eq, getLastD_cons_eq]
    exact ih { status := hd.1, notes := hd.2 }

/-- The quote file rows built by the upload loop are exactly the
per-file records, one per uploaded file in order. -/
theorem processQuoteFiles_records (normalize : String → String) (userId quoteId : String) :
    ∀ (files : List UploadedFile) (store : String → Option StoredObject),
      (processQuoteFiles normalize userId quoteId files store).1
        = files.map (createQuoteFileRecord normalize quoteId) := by
  intro files
  induction files with
  | nil => intro store; rfl
  | cons f rest ih =>
    intro store
    simp [processQuoteFiles, ih, createQuoteFileRecord, trySetObjectEntityAclPolicy]

/-- After the upload loop, every location of the object store either
still holds its previous content or holds an object carrying the
private owner-only policy of the uploading user. -/
theorem processQuoteFiles_store_cases (normalize : String → String) (userId quoteId : String) :
    ∀ (files : List UploadedFile) (store : String → Option StoredObject) (p : String),
      (processQuoteFiles normalize userId quoteId files store).2 p = store p ∨
      ∃ obj : StoredObject,
        (processQuoteFiles normalize userId quoteId files store).2 p = some obj ∧
        obj.policy = some { ownerId := userId, visibility := ObjectVisibility.PRIVATE, rules := [] } := by
  intro files
  induction files with
  | nil => intro store p; exact Or.inl rfl
  | cons f rest ih =>
    intro store p
    have step := ih (trySetObjectEntityAclPolicy normalize store f.uploadURL userId
      ObjectVisibility.PRIVATE).2 p
    rcases step with h | h
    · by_cases hp : p = normalize f.uploadURL
      · subst hp
        refine Or.inr ⟨{ bytes := match store (normalize f.uploadURL) with
                                  | some o => o.bytes
                                  | none => []
                         policy := some { ownerId := userId,
                                          visibility := ObjectVisibility.PRIVATE,
                                          rules := [] } }, ?_, rfl⟩
        rw [show (processQuoteFiles normalize userId quoteId (f :: rest) store).2
              = (processQuoteFiles normalize userId quoteId rest
                  (trySetObjectEntityAclPolicy normalize store f.uploadURL userId
                    ObjectVisibility.PRIVATE).2).2 from rfl, h]
        simp [trySetObjectEntityAclPolicy]
      · refine Or.inl ?_
        rw [show (processQuoteFiles normalize userId quoteId (f :: rest) store).2
              = (processQuoteFiles normalize userId quoteId rest
                  (trySetObjectEntityAclPolicy normalize store f.uploadURL userId
                    ObjectVisibility.PRIVATE).2).2 from rfl, h]
        simp [trySetObjectEntityAclPolicy, hp]
    · exact Or.inr h

/-- After the upload loop, the object at the normalized path of every
processed file carries the private owner-only policy. -/
theorem processQuoteFiles_policy (normalize : String → String) (userId quoteId : String) :
    ∀ (files : List UploadedFile) (store : String → Option StoredObject)
      (f : UploadedFile), f ∈ files →
      ∃ obj : StoredObject,
        (processQuoteFiles normalize userId quoteId files store).2 (normalize f.uploadURL) = some obj ∧
        obj.policy = some { ownerId := userId, visibility := ObjectVisibility.PRIVATE, rules := [] } := by
  intro files
  induction files with
  | nil => intro store f hf; cases hf
  | cons g rest ih =>
    intro store f hf
    rcases List.mem_cons.mp hf with hfg | hfr
    · subst hfg
      have hcases := processQuoteFiles_store_cases normalize userId quoteId rest
        (trySetObjectEntityAclPolicy normalize store f.uploadURL userId
          ObjectVisibility.PRIVATE).2 (normalize f.uploadURL)
      rcases hcases with h | h
      · refine ⟨{ bytes := match store (normalize f.uploadURL) with
                           | some o => o.bytes
                           | none => []
                  policy := some { ownerId := userId,
                                   visibility := ObjectVisibility.PRIVATE,
                                   rules := [] } }, ?_, rfl⟩
        rw [show (processQuoteFiles normalize userId quoteId (f :: rest) store).2
              = (processQuoteFiles normalize userId quoteId rest
                  (trySetObjectEntityAclPolicy normalize store f.uploadURL userId
                    ObjectVisibility.PRIVATE).2).2 from rfl, h]
        simp [trySetObjectEntityAclPolicy]
      · exact h
    · exact ih (trySetObjectEntityAclPolicy normalize store g.uploadURL userId
        ObjectVisibility.PRIVATE).2 f hfr

/-! ## Claims -/

/-- Claim C5: for every policy and every requested permission, the
owner passes checkAccess unconditionally — the owner branch is decided
before visibility or any rule is consulted. -/
theorem c5_owner_always_allowed (isMember : String → String → String → Bool)
    (p : ObjectPolicy) (perm : ObjectPermission) :
    checkAccess isMember p (some p.ownerId) perm = true := by
  simp [checkAccess]

/-- Claim C9: the user objects serialized by the register, login and
auth/user endpoints and by session deserialization are independent of
the stored password hash — changing the hash to any value leaves every
serialized object unchanged, and the serialized shape carries no
password field. -/
theorem c9_no_password_leak (u : User) (p : Option String) :
    registerResponseUser { u with password := p } = registerResponseUser u ∧
    authUserResponse { u with password := p } = authUserResponse u ∧
    localStrategyUser { u with password := p } = localStrategyUser u ∧
    deserializedUser { u with password := p } = deserializedUser u :=
  ⟨rfl, rfl, rfl, rfl⟩

/-- Claim C3: starting from a freshly created quote, after N
successful status updates the history has exactly N + 1 entries
(including the creation entry), the most recent history entry carries
the current status, and the updates only ever append to the history
(no entry is edited or deleted). -/
theorem c3_history_invariant (qid uid : String)
    (ts : List (QuoteStatus × Option String)) :
    (applyTransitions (createQuote qid uid) ts).history.length = ts.length + 1 ∧
    ((applyTransitions (createQuote qid uid) ts).history.getLastD
        { status := QuoteStatus.quote_requested, notes := none }).status
      = (applyTransitions (createQuote qid uid) ts).status ∧
    ∀ q0 : Quote, (applyTransitions q0 ts).history
      = q0.history ++ ts.map (fun p => { status := p.1, notes := p.2 }) := by
  refine ⟨?_, ?_, applyTransitions_history ts⟩
  · rw [applyTransitions_history ts (createQuote qid uid)]
    simp [createQuote, Nat.add_comm]
  · rw [applyTransitions_history ts (createQuote qid uid),
        applyTransitions_status ts (createQuote qid uid)]
    simp only [createQuote, List.cons_append, List.nil_append, getLastD_cons_eq]
    exact getLastD_map_status ts { status := QuoteStatus.quote_requested, notes := none }

/-- Claim C2: a requester without the admin capability gets Forbidden
from both admin routes, whatever status or price the body requests,
and the quote table is left unchanged. -/
theorem c2_nonadmin_forbidden (users : String → Option User)
    (db : String → Option Quote) (uid qid : String)
    (hadmin : isAdminUser users uid = false)
    (bs : RawStatusBody) (bp : RawPriceBody) :
    putAdminQuoteStatus users db uid qid bs = (AdminUpdateResult.forbidden, db) ∧
    putAdminQuotePrice users db uid qid bp = (AdminUpdateResult.forbidden, db) := by
  constructor
  · simp [putAdminQuoteStatus, hadmin]
  · simp [putAdminQuotePrice, hadmin]

/-- Witness for C2 at a concrete non-admin user. -/
theorem c2_nonadmin_forbidden_witness :
    isAdminUser usersFixture "cust1" = false ∧
    putAdminQuoteStatus usersFixture quotesFixture "cust1" "q1"
        { status := "shipped", notes := none }
      = (AdminUpdateResult.forbidden, quotesFixture) ∧
    putAdminQuotePrice usersFixture quotesFixture "cust1" "q1"
        { finalPrice := some "99.00" }
      = (AdminUpdateResult.forbidden, quotesFixture) :=
  ⟨by decide,
   (c2_nonadmin_forbidden usersFixture quotesFixture "cust1" "q1" (by decide)
      { status := "shipped", notes := none } { finalPrice := some "99.00" }).1,
   (c2_nonadmin_forbidden usersFixture quotesFixture "cust1" "q1" (by decide)
      { status := "shipped", notes := none } { finalPrice := some "99.00" }).2⟩

/-- Claim C8: for an admin, a malformed body makes either admin route
fail with the distinct validation-error outcome (HTTP 400) and leaves
the quote table untouched (status, history and price unchanged). -/
theorem c8_validation_error (users : String → Option User)
    (db : String → Option Quote) (uid qid : String)
    (hadmin : isAdminUser users uid = true) :
    (∀ bs : RawStatusBody, parseStatusBody bs = none →
      putAdminQuoteStatus users db uid qid bs = (AdminUpdateResult.validationError, db)) ∧
    (∀ bp : RawPriceBody, parsePriceBody bp = none →
      putAdminQuotePrice users db uid qid bp = (AdminUpdateResult.validationError, db)) := by
  constructor
  · intro bs hbs
    simp [putAdminQuoteStatus, hadmin, hbs]
  · intro bp hbp
    simp [putAdminQuotePrice, hadmin, hbp]

/-- Witness for C8 at concrete malformed bodies. -/
theorem c8_validation_error_witness :
    isAdminUser usersFixture "admin1" = true ∧
    parseStatusBody { status := "bogus", notes := none } = none ∧
    parsePriceBody { finalPrice := none } = none ∧
    putAdminQuoteStatus usersFixture quotesFixture "admin1" "q1"
        { status := "bogus", notes := none }
      = (AdminUpdateResult.validationError, quotesFixture) ∧
    putAdminQuotePrice usersFixture quotesFixture "admin1" "q1"
        { finalPrice := none }
      = (AdminUpdateResult.validationError, quotesFixture) :=
  ⟨by decide, rfl, rfl,
   (c8_validation_error usersFixture quotesFixture "admin1" "q1" (by decide)).1
     { status := "bogus", notes := none } rfl,
   (c8_validation_error usersFixture quotesFixture "admin1" "q1" (by decide)).2
     { finalPrice := none } rfl⟩

/-- Claim C1 counterexample: with an admin actor and a quote whose
current status is the terminal DELIVERED stage, requesting the
strictly smaller stage REQUESTED does not fail at all — the handler
succeeds and stores the regressed status, although the spec transition
rule forbids it; the claimed InvalidTransition failure does not occur
in the code. -/
theorem c1_regression_counterexample :
    statusIndex QuoteStatus.quote_requested < statusIndex QuoteStatus.delivered ∧
    deliveredQuote.status = QuoteStatus.delivered ∧
    specTransitionAllowed QuoteStatus.delivered QuoteStatus.quote_requested = false ∧
    (putAdminQuoteStatus usersFixture quotesFixture "admin1" "q1"
        { status := "quote_requested", notes := none }).1
      = AdminUpdateResult.ok
          (updateQuoteStatus deliveredQuote QuoteStatus.quote_requested none) := by
  refine ⟨by decide, rfl, by decide, ?_⟩
  rfl

/-- Claim C1 (amended): no transition validation exists — for an admin
actor, a status update with any well-formed status value succeeds
unconditionally, regardless of the current status of the quote:
regressions to a strictly smaller stage index and updates of DELIVERED
quotes succeed, and InvalidTransition is never raised. -/
theorem c1_no_transition_validation (users : String → Option User)
    (db : String → Option Quote) (uid qid : String) (b : RawStatusBody)
    (s : QuoteStatus) (notes : Option String) (q : Quote)
    (hadmin : isAdminUser users uid = true)
    (hparse : parseStatusBody b = some (s, notes))
    (hq : db qid = some q) :
    (putAdminQuoteStatus users db uid qid b).1
      = AdminUpdateResult.ok (updateQuoteStatus q s notes) := by
  simp [putAdminQuoteStatus, hadmin, hparse, hq]

/-- Witness for the amended C1 at a concrete regressing input. -/
theorem c1_no_transition_validation_witness :
    isAdminUser usersFixture "admin1" = true ∧
    parseStatusBody { status := "in_production", notes := some "regress" }
      = some (QuoteStatus.in_production, some "regress") ∧
    quotesFixture "q1" = some deliveredQuote ∧
    statusIndex QuoteStatus.in_production < statusIndex deliveredQuote.status ∧
    (putAdminQuoteStatus usersFixture quotesFixture "admin1" "q1"
        { status := "in_production", notes := some "regress" }).1
      = AdminUpdateResult.ok
          (updateQuoteStatus deliveredQuote QuoteStatus.in_production (some "regress")) :=
  ⟨by decide, rfl, rfl, by decide,
   c1_no_transition_validation usersFixture quotesFixture "admin1" "q1"
     { status := "in_production", notes := some "regress" }
     QuoteStatus.in_production (some "regress") deliveredQuote
     (by decide) rfl rfl⟩

/-- Claim C10: for an authenticated request to GET /api/quotes/:id,
an absent quote gives 404; an existing quote gives 403 Forbidden when
the requester is neither the owning user nor an admin, and the quote
itself otherwise — so a non-owner learns existence but not contents. -/
theorem c10_quote_read_access (users : String → Option User)
    (db : String → Option Quote) (uid qid : String) :
    (db qid = none → getQuoteById users db uid qid = QuoteGetResult.notFound) ∧
    (∀ q : Quote, db qid = some q → q.userId ≠ uid →
      isAdminUser users uid = false →
      getQuoteById users db uid qid = QuoteGetResult.forbidden) ∧
    (∀ q : Quote, db qid = some q →
      (q.userId = uid ∨ isAdminUser users uid = true) →
      getQuoteById users db uid qid = QuoteGetResult.ok q) := by
  refine ⟨?_, ?_, ?_⟩
  · intro h
    simp [getQuoteById, h]
  · intro q hq hne hadm
    simp [getQuoteById, hq, hne, hadm]
  · intro q hq hor
    rcases hor with h | h
    · simp [getQuoteById, hq, h]
    · simp [getQuoteById, hq, h]

/-- Witness for C10 covering all three branches. -/
theorem c10_quote_read_access_witness :
    quotesFixture "zzz" = none ∧
    getQuoteById usersFixture quotesFixture "cust1" "zzz" = QuoteGetResult.notFound ∧
    quotesFixture "q1" = some deliveredQuote ∧
    getQuoteById usersFixture quotesFixture "other" "q1" = QuoteGetResult.forbidden ∧
    getQuoteById usersFixture quotesFixture "admin1" "q1" = QuoteGetResult.ok deliveredQuote :=
  ⟨rfl,
   (c10_quote_read_access usersFixture quotesFixture "cust1" "zzz").1 rfl,
   rfl,
   (c10_quote_read_access usersFixture quotesFixture "other" "q1").2.1
     deliveredQuote rfl (by decide) (by decide),
   (c10_quote_read_access usersFixture quotesFixture "admin1" "q1").2.2
     deliveredQuote rfl (Or.inr (by decide))⟩

/-- Claim C4: for the authenticated GET /objects/:path route, an
absent object gives 404 before the access check runs; an existing
object whose access check denies gives 401; an allowed request streams
the object bytes with 200. -/
theorem c4_private_object_route (isMember : String → String → String → Bool)
    (store : String → Option StoredObject) (userId : Option String)
    (path : String) :
    (store path = none →
      getObjectsHandler isMember store userId path = ObjectsResult.notFound) ∧
    (∀ obj : StoredObject, store path = some obj →
      canAccessObjectEntity isMember obj userId = false →
      getObjectsHandler isMember store userId path = ObjectsResult.deny) ∧
    (∀ obj : StoredObject, store path = some obj →
      canAccessObjectEntity isMember obj userId = true →
      getObjectsHandler isMember store userId path = ObjectsResult.ok obj.bytes) := by
  refine ⟨?_, ?_, ?_⟩
  · intro h
    simp [getObjectsHandler, getObjectEntityFile, h]
  · intro obj hobj hdeny
    simp [getObjectsHandler, getObjectEntityFile, hobj, hdeny]
  · intro obj hobj hallow
    simp [getObjectsHandler, getObjectEntityFile, hobj, hallow]

/-- Witness for C4 covering the missing, denied and allowed cases. -/
theorem c4_private_object_route_witness :
    objectStoreFixture "/objects/nope" = none ∧
    getObjectsHandler noMembership objectStoreFixture (some "cust1") "/objects/nope"
      = ObjectsResult.notFound ∧
    objectStoreFixture "/objects/uploads/u1" = some privateObjFixture ∧
    canAccessObjectEntity noMembership privateObjFixture (some "other") = false ∧
    getObjectsHandler noMembership objectStoreFixture (some "other") "/objects/uploads/u1"
      = ObjectsResult.deny ∧
    canAccessObjectEntity noMembership privateObjFixture (some "cust1") = true ∧
    getObjectsHandler noMembership objectStoreFixture (some "cust1") "/objects/uploads/u1"
      = ObjectsResult.ok privateObjFixture.bytes :=
  ⟨rfl,
   (c4_private_object_route noMembership objectStoreFixture (some "cust1") "/objects/nope").1 rfl,
   rfl,
   by decide,
   (c4_private_object_route noMembership objectStoreFixture (some "other")
      "/objects/uploads/u1").2.1 privateObjFixture rfl (by decide),
   by decide,
   (c4_private_object_route noMembership objectStoreFixture (some "cust1")
      "/objects/uploads/u1").2.2 privateObjFixture rfl (by decide)⟩

/-- Claim C7: the GET /public-objects/:path route consults no
authentication (its outcome is the same for every requester) and
decodes no policy (its outcome depends only on the byte content of the
public namespace); it answers 404 when no public object matches and
streams the object bytes otherwise. -/
theorem c7_public_object_route (pub : String → Option StoredObject)
    (requester : Option String) (filePath : String) :
    (∀ r2 : Option String, getPublicObjectsHandler pub requester filePath
        = getPublicObjectsHandler pub r2 filePath) ∧
    (pub filePath = none →
      getPublicObjectsHandler pub requester filePath = PublicResult.notFound) ∧
    (∀ obj : StoredObject, pub filePath = some obj →
      getPublicObjectsHandler pub requester filePath = PublicResult.ok obj.bytes) ∧
    (∀ pub2 : String → Option StoredObject,
      (∀ p : String, Option.map StoredObject.bytes (pub p)
          = Option.map StoredObject.bytes (pub2 p)) →
      getPublicObjectsHandler pub requester filePath
        = getPublicObjectsHandler pub2 requester filePath) := by
  refine ⟨fun r2 => rfl, ?_, ?_, ?_⟩
  · intro h
    simp [getPublicObjectsHandler, searchPublicObject, h]
  · intro obj h
    simp [getPublicObjectsHandler, searchPublicObject, h]
  · intro pub2 h
    have hp := h filePath
    unfold getPublicObjectsHandler searchPublicObject
    cases h1 : pub filePath <;> cases h2 : pub2 filePath <;>
      rw [h1, h2] at hp <;> simp_all

/-- Witness for C7: a present and an absent public path, and a policy
stripped copy of the namespace giving the same response. -/
theorem c7_public_object_route_witness :
    pubStoreFixture "missing.png" = none ∧
    getPublicObjectsHandler pubStoreFixture none "missing.png" = PublicResult.notFound ∧
    pubStoreFixture "logo.png" = some publicObjFixture ∧
    getPublicObjectsHandler pubStoreFixture (some "anyone") "logo.png"
      = PublicResult.ok publicObjFixture.bytes ∧
    getPublicObjectsHandler pubStoreFixture (some "anyone") "logo.png"
      = getPublicObjectsHandler pubStoreStripped (some "anyone") "logo.png" :=
  ⟨rfl,
   (c7_public_object_route pubStoreFixture none "missing.png").2.1 rfl,
   rfl,
   (c7_public_object_route pubStoreFixture (some "anyone") "logo.png").2.2.1
     publicObjFixture rfl,
   (c7_public_object_route pubStoreFixture (some "anyone") "logo.png").2.2.2
     pubStoreStripped
     (fun p => by
       by_cases h : p = "logo.png" <;>
         simp [pubStoreFixture, pubStoreStripped, publicObjFixture, strippedObjFixture, h])⟩

/-- Claim C6: the file loop of POST /api/quotes creates, for the
uploaded files, exactly one quote file row per file whose filePath is
the normalized canonical path of its upload URL, and attaches to every
uploaded object a policy owned by the authenticated uploading user
with private visibility and no extra rules. -/
theorem c6_upload_acl_and_paths (normalize : String → String)
    (userId quoteId : String) (files : List UploadedFile)
    (store : String → Option StoredObject) :
    (processQuoteFiles normalize userId quoteId files store).1
      = files.map (createQuoteFileRecord normalize quoteId) ∧
    ∀ f : UploadedFile, f ∈ files →
      ∃ obj : StoredObject,
        (processQuoteFiles normalize userId quoteId files store).2
            (normalize f.uploadURL) = some obj ∧
        obj.policy = some { ownerId := userId, visibility := ObjectVisibility.PRIVATE,
                            rules := [] } :=
  ⟨processQuoteFiles_records normalize userId quoteId files store,
   fun f hf => processQuoteFiles_policy normalize userId quoteId files store f hf⟩

/-- Witness for C6 at a concrete single CAD file upload. -/
theorem c6_upload_acl_and_paths_witness :
    ({ uploadURL := "up1", name := "part.step", size := some 42 } : UploadedFile)
        ∈ [({ uploadURL := "up1", name := "part.step", size := some 42 } : UploadedFile)] ∧
    (processQuoteFiles normalizeFixture "cust1" "q9"
        [{ uploadURL := "up1", name := "part.step", size := some 42 }]
        (fun _ => none)).1
      = [{ quoteId := "q9", fileName := "part.step", filePath := "/objects/up1",
           fileType := ("part.step".splitOn ".").getLastD "", fileSize := 42 }] ∧
    ∃ obj : StoredObject,
      (processQuoteFiles normalizeFixture "cust1" "q9"
          [{ uploadURL := "up1", name := "part.step", size := some 42 }]
          (fun _ => none)).2 (normalizeFixture "up1") = some obj ∧
      obj.policy = some { ownerId := "cust1", visibility := ObjectVisibility.PRIVATE,
                          rules := [] } :=
  ⟨by simp,
   by
     have h := (c6_upload_acl_and_paths normalizeFixture "cust1" "q9"
       [{ uploadURL := "up1", name := "part.step", size := some 42 }] (fun _ => none)).1
     rw [h]
     rfl,
   (c6_upload_acl_and_paths normalizeFixture "cust1" "q9"
       [{ uploadURL := "up1", name := "part.step", size := some 42 }] (fun _ => none)).2
     { uploadURL := "up1", name := "part.step", size := some 42 } (by simp)⟩

end Mademetry
